import Mathlib

/-!
Verification development for the mqtts MQTT 3.1.1 client engine.

The development embeds, in a shallow style:
  * the default reconnect strategy
    (src/reconnect-strategy/mqtts.reconnect-strategy.default.ts), translated
    directly from its TypeScript source, with method state threaded
    explicitly; and
  * the parts of the MqttClient session engine that the test suite
    (mqtt.client.spec.ts) exercises.  The client implementation itself is not
    among the provided sources, so those parts are modelled from the design
    specification, as marked in the individual doc comments.
-/

/-- Possible values of the `reason` argument passed to the reconnect
strategy.  In the TypeScript source `reason` has type `any`; the strategy
only ever inspects whether it is a `ConnectError` (and then its `status`
string) or a plain string, so we model every other value with `other`. -/
inductive StrategyReason
  | connectError (status : String)
  | str (s : String)
  | other
deriving DecidableEq

/-- State of `MqttsReconnectStrategyDefault`
(src/reconnect-strategy/mqtts.reconnect-strategy.default.ts).
`attempts` and `interval` are the constructor parameters (defaults 60 and
1000 ms); `internalAttempts` is the private `#attempts` counter, initialised
to 1. -/
structure MqttsReconnectStrategyDefault where
  attempts : Nat := 60
  interval : Nat := 1000
  internalAttempts : Nat := 1
deriving DecidableEq

namespace MqttsReconnectStrategyDefault

/-- Translation of `should(reason?)`.  Methods are modelled in
state-passing style: the second component is the state of the object after
the call (the source method performs no assignment, so every branch returns
the receiver unchanged). -/
def should (self : MqttsReconnectStrategyDefault) (reason : Option StrategyReason) :
    Bool × MqttsReconnectStrategyDefault :=
  match reason with
  | some (.connectError status) =>
    if (["NotAuthorized", "UnacceptableProtocolVersion", "BadUsernameOrPassword"]).contains status
    then (false, self)
    else (decide (self.internalAttempts ≤ self.attempts), self)
  | some (.str s) =>
    if (["Soft disconnect", "Forced disconnect"]).contains s
    then (false, self)
    else (decide (self.internalAttempts ≤ self.attempts), self)
  | _ => (decide (self.internalAttempts ≤ self.attempts), self)

/-- Translation of `wait()`: increments the private counter and resolves
after `interval` milliseconds.  The second component is the duration, in
milliseconds, after which the returned promise resolves. -/
def wait (self : MqttsReconnectStrategyDefault) :
    MqttsReconnectStrategyDefault × Nat :=
  ({ self with internalAttempts := self.internalAttempts + 1 }, self.interval)

/-- Translation of `reset()`: sets the private counter back to 1. -/
def reset (self : MqttsReconnectStrategyDefault) : MqttsReconnectStrategyDefault :=
  { self with internalAttempts := 1 }

/-- The state after `n` successive `wait()` calls. -/
def waitN (self : MqttsReconnectStrategyDefault) : Nat → MqttsReconnectStrategyDefault
  | 0 => self
  | n + 1 => ((waitN self n).wait).1

/-- The list of booleans returned by `n` consecutive `should(reason)` calls,
threading the (possibly updated) object state through, together with the
final state. -/
def shouldRepeat (self : MqttsReconnectStrategyDefault) (reason : Option StrategyReason) :
    Nat → List Bool × MqttsReconnectStrategyDefault
  | 0 => ([], self)
  | n + 1 =>
    let p := self.should reason
    let q := shouldRepeat p.2 reason n
    (p.1 :: q.1, q.2)

theorem waitN_attempts (self : MqttsReconnectStrategyDefault) (n : Nat) :
    (waitN self n).attempts = self.attempts := by
  induction n with
  | zero => rfl
  | succ n ih => simp [waitN, wait, ih]

theorem waitN_interval (self : MqttsReconnectStrategyDefault) (n : Nat) :
    (waitN self n).interval = self.interval := by
  induction n with
  | zero => rfl
  | succ n ih => simp [waitN, wait, ih]

theorem waitN_internalAttempts (self : MqttsReconnectStrategyDefault) (n : Nat) :
    (waitN self n).internalAttempts = self.internalAttempts + n := by
  induction n with
  | zero => rfl
  | succ n ih =>
    show ((waitN self n).wait).1.internalAttempts = self.internalAttempts + (n + 1)
    simp only [wait]
    omega

theorem should_state (self : MqttsReconnectStrategyDefault) (reason : Option StrategyReason) :
    (self.should reason).2 = self := by
  cases reason with
  | none => rfl
  | some r => cases r <;> simp [should] <;> split <;> rfl

end MqttsReconnectStrategyDefault

/-- Reasons the default strategy refuses outright, independent of the
attempt budget: a `ConnectError` whose status is one of the three refused
statuses, or one of the two user-initiated disconnect strings.  (Stated
from the claim, to compare against the source `should`.) -/
def refusedReason : Option StrategyReason → Bool
  | some (.connectError status) =>
    (["NotAuthorized", "UnacceptableProtocolVersion", "BadUsernameOrPassword"]).contains status
  | some (.str s) => (["Soft disconnect", "Forced disconnect"]).contains s
  | _ => false

/-- C3: for the default reconnect strategy constructed with default
parameters, `should(reason)` returns false when `reason` is a refused
`ConnectError` status or one of the two user-initiated disconnect strings,
and for every other reason it returns true exactly when fewer than 60
`wait()` calls have occurred since construction, each `wait()` completing
after the fixed 1000 ms interval. -/
theorem default_strategy_should (n : Nat) (r : Option StrategyReason) :
    (((MqttsReconnectStrategyDefault.waitN {} n).should r).1
        = (!refusedReason r && decide (n < 60)))
    ∧ ((MqttsReconnectStrategyDefault.waitN ({} : MqttsReconnectStrategyDefault) n).wait).2
        = 1000 := by
  have hA : (MqttsReconnectStrategyDefault.waitN {} n).attempts = 60 :=
    (MqttsReconnectStrategyDefault.waitN_attempts {} n).trans rfl
  have hI : (MqttsReconnectStrategyDefault.waitN {} n).internalAttempts = 1 + n :=
    (MqttsReconnectStrategyDefault.waitN_internalAttempts {} n).trans rfl
  have hV : (MqttsReconnectStrategyDefault.waitN {} n).interval = 1000 :=
    (MqttsReconnectStrategyDefault.waitN_interval {} n).trans rfl
  refine ⟨?_, hV⟩
  cases r with
  | none =>
    show decide ((MqttsReconnectStrategyDefault.waitN {} n).internalAttempts
        ≤ (MqttsReconnectStrategyDefault.waitN {} n).attempts) = _
    rw [hI, hA]
    simp only [refusedReason, Bool.not_false, Bool.true_and]
    rw [decide_eq_decide]
    omega
  | some r0 =>
    cases r0 with
    | connectError s =>
      simp only [MqttsReconnectStrategyDefault.should, refusedReason]
      cases hcs : (["NotAuthorized", "UnacceptableProtocolVersion",
          "BadUsernameOrPassword"]).contains s with
      | true => simp [hcs]
      | false =>
        simp only [hcs, Bool.false_eq_true, if_false, Bool.not_false, Bool.true_and]
        rw [hI, hA, decide_eq_decide]
        omega
    | str s =>
      simp only [MqttsReconnectStrategyDefault.should, refusedReason]
      cases hcs : (["Soft disconnect", "Forced disconnect"]).contains s with
      | true => simp [hcs]
      | false =>
        simp only [hcs, Bool.false_eq_true, if_false, Bool.not_false, Bool.true_and]
        rw [hI, hA, decide_eq_decide]
        omega
    | other =>
      show decide ((MqttsReconnectStrategyDefault.waitN {} n).internalAttempts
          ≤ (MqttsReconnectStrategyDefault.waitN {} n).attempts) = _
      rw [hI, hA]
      simp only [refusedReason, Bool.not_false, Bool.true_and]
      rw [decide_eq_decide]
      omega

/-- C9: for the default reconnect strategy, `reset()` restores the full
attempt budget: after any number `n` of `wait()` calls followed by
`reset()`, `should(reason)` returns, for every reason, the same value as on
a freshly constructed strategy with the same parameters. -/
theorem reset_restores_fresh (a i n : Nat) (r : Option StrategyReason) :
    ((MqttsReconnectStrategyDefault.waitN { attempts := a, interval := i } n).reset).should r
      = MqttsReconnectStrategyDefault.should { attempts := a, interval := i } r := by
  have h1 := MqttsReconnectStrategyDefault.waitN_attempts
    { attempts := a, interval := i } n
  have h2 := MqttsReconnectStrategyDefault.waitN_interval
    { attempts := a, interval := i } n
  have h : (MqttsReconnectStrategyDefault.waitN { attempts := a, interval := i } n).reset
      = ({ attempts := a, interval := i } : MqttsReconnectStrategyDefault) := by
    simp only [MqttsReconnectStrategyDefault.reset]
    rw [h1, h2]
  rw [h]

/-- C10: `should(reason)` never mutates the strategy state: after any
number of consecutive `should` calls the state is unchanged and every call
returned the same boolean. -/
theorem should_no_mutation (self : MqttsReconnectStrategyDefault)
    (r : Option StrategyReason) (n : Nat) :
    (MqttsReconnectStrategyDefault.shouldRepeat self r n).2 = self ∧
    (MqttsReconnectStrategyDefault.shouldRepeat self r n).1
      = List.replicate n (self.should r).1 := by
  induction n with
  | zero => exact ⟨rfl, rfl⟩
  | succ n ih =>
    refine ⟨?_, ?_⟩
    · show (MqttsReconnectStrategyDefault.shouldRepeat (self.should r).2 r n).2 = self
      rw [MqttsReconnectStrategyDefault.should_state]
      exact ih.1
    · show (self.should r).1
          :: (MqttsReconnectStrategyDefault.shouldRepeat (self.should r).2 r n).1
        = List.replicate (n + 1) (self.should r).1
      rw [MqttsReconnectStrategyDefault.should_state, ih.2, List.replicate_succ]

/-- Decoded inbound MQTT control packets, restricted to the shapes the
session engine inspects.  Other recognised control types are kept as
`other` with their type nibble. -/
inductive DecodedPacket
  | connack (sessionPresent : Bool) (returnCode : Nat)
  | publish (dup : Bool) (qos : Nat) (retain : Bool)
      (topic : List Nat) (packetId : Option Nat) (payload : List Nat)
  | pingresp
  | other (ptype : Nat)
deriving DecidableEq

/-- Error taxonomy of the engine (spec section 7), restricted to the kinds
this development needs. -/
inductive MqttError
  | malformedPacket
  | malformedLength
  | unexpectedPacket
  | connectError (returnCode : Nat)
  | protocolViolation
deriving DecidableEq

/-- Result of trying to decode the `remaining_length` variable-byte
integer from the front of a byte list. -/
inductive LenResult
  | ok (len : Nat) (rest : List Nat)
  | needMore
  | malformed
deriving DecidableEq

/-- Modelled from the spec: the `remaining_length` decoder (spec section
4.1); the packet codec source is not among the provided files.  Bytes carry
7-bit groups little-endian, the high bit signals continuation, and a fifth
continuation byte is `MalformedLength`. -/
def decodeRemainingLength : Nat → Nat → List Nat → LenResult
  | _, _, [] => .needMore
  | shift, acc, b :: rest =>
    if 28 ≤ shift then .malformed
    else
      let acc2 := acc + b % 128 * 2 ^ shift
      if b < 128 then .ok acc2 rest
      else decodeRemainingLength (shift + 7) acc2 rest

/-- Modelled from the spec: the per-type body decoder of the packet codec
(spec section 4.1).  `ptype` is the high nibble of the fixed header and
`flags` the low nibble.  Only CONNACK, PUBLISH and PINGRESP carry data the
session engine inspects; type nibbles 0 and 15 are unknown types and fail
with `UnexpectedPacketError`. -/
def decodeBody (ptype flags : Nat) (body : List Nat) : Except MqttError DecodedPacket :=
  match ptype with
  | 2 =>
    match body with
    | [ack, rc] => .ok (.connack (ack % 2 == 1) rc)
    | _ => .error .malformedPacket
  | 3 =>
    let dup := flags / 8 % 2 == 1
    let qos := flags / 2 % 4
    let retain := flags % 2 == 1
    if dup && qos == 0 then .error .protocolViolation
    else
      match body with
      | hi :: lo :: rest =>
        let tlen := hi * 256 + lo
        if rest.length < tlen then .error .malformedPacket
        else
          let topic := rest.take tlen
          let after := rest.drop tlen
          if qos == 0 then .ok (.publish dup qos retain topic none after)
          else
            match after with
            | pidHi :: pidLo :: payload =>
              .ok (.publish dup qos retain topic (some (pidHi * 256 + pidLo)) payload)
            | _ => .error .malformedPacket
      | _ => .error .malformedPacket
  | 13 => .ok .pingresp
  | 0 => .error .unexpectedPacket
  | 15 => .error .unexpectedPacket
  | t => .ok (.other t)

/-- Result of trying to decode one packet from the front of the inbound
byte buffer (spec section 4.2): a packet plus the remaining bytes, a
request for more bytes, or a decode error. -/
inductive DecodeResult
  | ok (p : DecodedPacket) (rest : List Nat)
  | needMore
  | err (e : MqttError)
deriving DecidableEq

/-- Modelled from the spec: decoding one packet from the front of the
buffer (spec sections 4.1 and 4.2): fixed header byte, remaining length,
then the body handed to `decodeBody`. -/
def decodeOnePacket (bytes : List Nat) : DecodeResult :=
  match bytes with
  | [] => .needMore
  | fixed :: rest =>
    match decodeRemainingLength 0 0 rest with
    | .malformed => .err .malformedLength
    | .needMore => .needMore
    | .ok len rest2 =>
      if rest2.length < len then .needMore
      else
        match decodeBody (fixed / 16) (fixed % 16) (rest2.take len) with
        | .error e => .err e
        | .ok p => .ok p (rest2.drop len)

/-- ASCII bytes rendered as a string.  The model restricts the UTF-8
strings of the wire format to the ASCII inputs the scenarios use. -/
def asciiOfBytes (bs : List Nat) : String :=
  String.mk (bs.map Char.ofNat)

/-- Modelled from the spec: standard MQTT topic-filter matching over
slash-separated levels (spec section 4.5): `+` matches exactly one level
and `#` matches any remaining tail, including the parent level. -/
def matchLevels : List String → List String → Bool
  | ["#"], _ => true
  | [], [] => true
  | [], _ :: _ => false
  | _ :: _, [] => false
  | f :: fs, t :: ts => (f == "+" || f == t) && matchLevels fs ts

/-- Helper for `splitLevels`: splits a character list at every slash; the
accumulator holds the current level reversed. -/
def splitLevelsAux : List Char → List Char → List String
  | [], acc => [String.mk acc.reverse]
  | c :: cs, acc =>
    if c = '/' then String.mk acc.reverse :: splitLevelsAux cs []
    else splitLevelsAux cs (c :: acc)

/-- The slash-separated levels of a topic or filter. -/
def splitLevels (s : String) : List String :=
  splitLevelsAux s.data []

/-- Whether a topic filter matches a concrete topic. -/
def topicFilterMatches (filt topic : String) : Bool :=
  matchLevels (splitLevels filt) (splitLevels topic)

/-- The value carried by the `message` event and handed to listeners
(spec section 4.5). -/
structure MqttMessage where
  topic : String
  payload : List Nat
  qosLevel : Nat
  retained : Bool
  duplicate : Bool
deriving DecidableEq

/-- Connect request as passed by the caller (`RegisterClientOptions`),
with the optional fields the scenarios use. -/
structure RegisterClientOptions where
  clientId : String := ""
  clean : Option Bool := none
  keepAlive : Option Nat := none
  connectDelay : Option Nat := none
deriving DecidableEq

/-- Connect request after defaulting (`RequiredConnectRequestOptions`). -/
structure RequiredConnectRequestOptions where
  clientId : String
  keepAlive : Nat
  clean : Bool
  protocolName : String
  protocolLevel : Nat
deriving DecidableEq

/-- Modelled from the spec: the defaults the client applies to a connect
request (spec section 3): `keep_alive` 60, `clean` true, protocol name
"MQTT", protocol level 4. -/
def fillDefaults (o : RegisterClientOptions) : RequiredConnectRequestOptions :=
  { clientId := o.clientId
    keepAlive := o.keepAlive.getD 60
    clean := o.clean.getD true
    protocolName := "MQTT"
    protocolLevel := 4 }

/-- Outcome of a pending `connect()` call. -/
inductive ConnectOutcome
  | resolved
  | rejected (e : MqttError)
deriving DecidableEq

/-- Observable state of one session: the `ready` and `disconnected`
booleans, the emitted lifecycle events in order, the `message` event
payloads, the listener invocations as (filter, message) pairs, and the
settlement of the pending `connect()` call. -/
structure SessionState where
  ready : Bool := false
  disconnected : Bool := false
  events : List String := []
  messages : List MqttMessage := []
  listenerCalls : List (String × MqttMessage) := []
  connectResult : Option ConnectOutcome := none
deriving DecidableEq

/-- Modelled from the spec: a fatal session error (spec section 7): emit
`error` then `disconnect`, leave `ready` false and `disconnected` true, and
reject a still-pending `connect()` with the error. -/
def sessionFail (st : SessionState) (e : MqttError) : SessionState :=
  { st with
    ready := false
    disconnected := true
    events := st.events ++ ["error", "disconnect"]
    connectResult :=
      match st.connectResult with
      | none => some (.rejected e)
      | some r => some r }

/-- The listener invocations an inbound PUBLISH produces: one call per
registered filter that matches the topic, in registration order. -/
def listenerDispatch (listeners : List String) (msg : MqttMessage) :
    List (String × MqttMessage) :=
  (listeners.filter (fun f => topicFilterMatches f msg.topic)).map (fun f => (f, msg))

/-- Modelled from the spec: dispatch of one decoded inbound packet by the
session engine (spec section 4.6).  While awaiting CONNACK, a CONNACK with
return code 0 makes the session ready and emits `connect`; a CONNACK with a
nonzero code fails the session with a `ConnectError`; any other packet
fails it with `UnexpectedPacketError`.  When ready, a PUBLISH emits one
`message` event and invokes the matching listeners. -/
def dispatchPacket (listeners : List String) (st : SessionState)
    (p : DecodedPacket) : SessionState :=
  if st.ready then
    match p with
    | .publish dup qos retain topicBytes _ payload =>
      let msg : MqttMessage :=
        { topic := asciiOfBytes topicBytes
          payload := payload
          qosLevel := qos
          retained := retain
          duplicate := dup }
      { st with
        events := st.events ++ ["message"]
        messages := st.messages ++ [msg]
        listenerCalls := st.listenerCalls ++ listenerDispatch listeners msg }
    | _ => st
  else
    match p with
    | .connack _ 0 =>
      { st with
        ready := true
        events := st.events ++ ["connect"]
        connectResult := some .resolved }
    | .connack _ rc => sessionFail st (.connectError rc)
    | _ => sessionFail st .unexpectedPacket

/-- Modelled from the spec: the frame-reader loop of one session (spec
section 4.2): repeatedly decode one packet from the front of the buffer and
dispatch it; stop on incomplete trailing bytes; a decode error is a fatal
session error.  The first argument is recursion fuel; one byte is consumed
per packet at least, so `bytes.length + 1` suffices. -/
def runLoop (listeners : List String) : Nat → SessionState → List Nat → SessionState
  | 0, st, _ => st
  | fuel + 1, st, bytes =>
    if st.disconnected then st
    else
      match decodeOnePacket bytes with
      | .needMore => st
      | .err e => sessionFail st e
      | .ok p rest => runLoop listeners fuel (dispatchPacket listeners st p) rest

/-- Observable result of one `connect()` call with a given inbound byte
stream: the CONNECT packets written (as their defaulted options) and the
final session state. -/
structure ConnectRun where
  writes : List RequiredConnectRequestOptions
  state : SessionState
deriving DecidableEq

/-- Modelled from the spec: a single session driven by `connect(opts)`
(spec section 4.6): exactly one CONNECT is written when the session starts,
then the inbound bytes are framed and dispatched. -/
def runSession (opts : RegisterClientOptions) (listeners : List String)
    (inbound : List Nat) : ConnectRun :=
  { writes := [fillDefaults opts]
    state := runLoop listeners (inbound.length + 1) {} inbound }

/-- Observable state of the client across sessions: the reconnect-strategy
state, every CONNECT written (as its defaulted options), the lifecycle
events, the listener invocations, and the `ready` and `disconnected`
booleans. -/
structure ClientState where
  strategy : MqttsReconnectStrategyDefault
  writes : List RequiredConnectRequestOptions := []
  events : List String := []
  listenerCalls : List (String × MqttMessage) := []
  ready : Bool := false
  disconnected : Bool := false
deriving DecidableEq

/-- A freshly constructed client whose auto-reconnect uses the default
strategy with the given `max_reconnect_attempts`. -/
def initialClient (maxAttempts : Nat) : ClientState :=
  { strategy := { attempts := maxAttempts } }

/-- Modelled from the spec: the reconnect controller (spec section 4.7)
driving one session per transport attachment.  Each attachment starts by
writing CONNECT, then frames and dispatches that attachment's inbound
bytes; the transport is destroyed at the end of each attachment.  On
destruction the controller consults the strategy: if `should` grants a
retry it performs `wait()` and re-drives the engine on the next attachment
with the same listener registry; otherwise the client reaches terminal
disconnect and emits `disconnect`.  Per the reconnect test the design notes
defer to (spec section 9), the strategy budget is not reset by the CONNACKs
of automatic reconnects, so `max_reconnect_attempts` bounds the successive
recoveries. -/
def runAttachments (opts : RegisterClientOptions) (listeners : List String) :
    ClientState → List (List Nat) → ClientState
  | cs, [] => cs
  | cs, inbound :: rest =>
    if cs.disconnected then cs
    else
      let st := runLoop listeners (inbound.length + 1) {} inbound
      let cs2 : ClientState :=
        { cs with
          writes := cs.writes ++ [fillDefaults opts]
          ready := st.ready
          disconnected := st.disconnected
          events := cs.events ++ st.events
          listenerCalls := cs.listenerCalls ++ st.listenerCalls }
      if cs2.disconnected then cs2
      else
        let p := cs2.strategy.should (some .other)
        if p.1 then
          runAttachments opts listeners
            { cs2 with strategy := (p.2.wait).1, ready := false } rest
        else
          { cs2 with
            ready := false
            disconnected := true
            events := cs2.events ++ ["disconnect"] }

/-- Modelled from the spec: the times, in milliseconds since `connect()`,
at which a CONNECT is written when no CONNACK ever arrives (spec section
4.6): the first write is observable by t = 1 ms, and with
`connect_delay_ms > 0` an identical CONNECT is re-issued every
`connect_delay_ms` thereafter.  `horizon` (at least 1) bounds the observed
window. -/
def connectWriteTimes (delay horizon : Nat) : List Nat :=
  if horizon = 0 then []
  else if delay = 0 then [1]
  else (List.range ((horizon - 1) / delay + 1)).map (fun k => 1 + k * delay)

/-- The timed CONNECT writes of a `connect(opts)` call that never receives
a CONNACK, paired with the written (defaulted) options. -/
def connectDelayWrites (opts : RegisterClientOptions) (horizon : Nat) :
    List (Nat × RequiredConnectRequestOptions) :=
  (connectWriteTimes (opts.connectDelay.getD 0) horizon).map
    (fun t => (t, fillDefaults opts))

/-- An active flow as the multiplexer tracks it: its process-unique
`flow_id` and the packet identifier it holds, if any. -/
structure ActiveFlow where
  flowId : Nat
  packetId : Option Nat := none
deriving DecidableEq

/-- Terminal settlement of a flow awaiter. -/
inductive FlowOutcome
  | completed
  | flowStoppedError
  | sessionClosedError
deriving DecidableEq

/-- State of the flow multiplexer (spec section 4.4): the active flows in
insertion order, the in-use packet identifiers, the settled awaiters, and
the next fresh `flow_id`. -/
structure FlowHost where
  flows : List ActiveFlow := []
  usedPacketIds : List Nat := []
  results : List (Nat × FlowOutcome) := []
  nextFlowId : Nat := 0
deriving DecidableEq

/-- Modelled from the spec: `start_flow` registers a flow under a fresh
`flow_id` and records the packet identifier it holds, if any (spec section
4.4). -/
def startFlow (h : FlowHost) (pid : Option Nat) : FlowHost × Nat :=
  ({ h with
      nextFlowId := h.nextFlowId + 1
      flows := h.flows ++ [{ flowId := h.nextFlowId, packetId := pid }]
      usedPacketIds := h.usedPacketIds ++ pid.toList }, h.nextFlowId)

/-- Modelled from the spec: `stop_flow(flow_id)` (spec section 4.4): if a
flow with that id is active it is removed, the packet identifier it holds
is released, and its awaiter settles with `FlowStoppedError`; the returned
boolean says whether the flow was found. -/
def stopFlow (h : FlowHost) (fid : Nat) : Bool × FlowHost :=
  match h.flows.find? (fun f => f.flowId == fid) with
  | none => (false, h)
  | some f =>
    (true,
      { h with
        flows := h.flows.filter (fun g => g.flowId != fid)
        usedPacketIds := h.usedPacketIds.filter (fun i => f.packetId != some i)
        results := h.results ++ [(fid, .flowStoppedError)] })

/-- C1: with the transport delivering `20 02 01 00` (CONNACK with session
present and return code 0), `connect({client_id:"MQTTS"})` resolves,
`ready` is true afterwards, and exactly one CONNECT was written whose
options are the request extended with the defaults `keep_alive=60`,
`clean=true`, `protocol_name="MQTT"`, `protocol_level=4`. -/
theorem connect_success_scenario :
    (let run := runSession { clientId := "MQTTS" } [] [0x20, 0x02, 0x01, 0x00]
     run.state.connectResult = some ConnectOutcome.resolved ∧
     run.state.ready = true ∧
     run.writes = [{ clientId := "MQTTS", keepAlive := 60, clean := true,
                     protocolName := "MQTT", protocolLevel := 4 }] ∧
     run.writes = [fillDefaults { clientId := "MQTTS" }]) := by
  decide

/-- Tests whether a decoded packet is a CONNACK. -/
def isConnack : DecodedPacket → Bool
  | .connack _ _ => true
  | _ => false

/-- C2: while the session is awaiting CONNACK, receiving any inbound
packet other than CONNACK is a fatal session error.  First, dispatching
any decoded non-CONNACK packet in a not-ready session fails the session
with `UnexpectedPacketError`, whatever the listener registry.  Second, in
the fresh awaiting-CONNACK state this rejects `connect()` with
`UnexpectedPacketError`, fires the `error` and `disconnect` events exactly
once each, and leaves `ready` false and `disconnected` true.  Third, the
instance of the claim, the bytes `f0 02 01 00` (reserved type nibble 15),
produces the same fatal outcome end to end, failing in the decoder as an
unknown type. -/
theorem unexpected_packet_handshake_scenario :
    (∀ (listeners : List String) (st : SessionState) (p : DecodedPacket),
        st.ready = false → isConnack p = false →
        dispatchPacket listeners st p = sessionFail st MqttError.unexpectedPacket) ∧
    (∀ (listeners : List String) (p : DecodedPacket),
        isConnack p = false →
        (dispatchPacket listeners {} p).connectResult
            = some (ConnectOutcome.rejected MqttError.unexpectedPacket) ∧
        (dispatchPacket listeners {} p).events.count "error" = 1 ∧
        (dispatchPacket listeners {} p).events.count "disconnect" = 1 ∧
        (dispatchPacket listeners {} p).ready = false ∧
        (dispatchPacket listeners {} p).disconnected = true) ∧
    (let run := runSession {} [] [0xf0, 0x02, 0x01, 0x00]
     run.state.connectResult = some (ConnectOutcome.rejected MqttError.unexpectedPacket) ∧
     run.state.events.count "error" = 1 ∧
     run.state.events.count "disconnect" = 1 ∧
     run.state.ready = false ∧
     run.state.disconnected = true) := by
  have hdisp : ∀ (listeners : List String) (st : SessionState) (p : DecodedPacket),
      st.ready = false → isConnack p = false →
      dispatchPacket listeners st p = sessionFail st MqttError.unexpectedPacket := by
    intro listeners st p hready hp
    cases p with
    | connack sp rc => simp [isConnack] at hp
    | publish d q r t pid pl => simp [dispatchPacket, hready]
    | pingresp => simp [dispatchPacket, hready]
    | other t => simp [dispatchPacket, hready]
  refine ⟨hdisp, ?_, ?_⟩
  · intro listeners p hp
    rw [hdisp listeners {} p rfl hp]
    decide
  · decide

/-- Witness for C2: dispatching a decoded PINGRESP, a non-CONNACK packet,
in the fresh awaiting-CONNACK state fails the session with
`UnexpectedPacketError` and rejects the pending `connect()`. -/
theorem unexpected_packet_handshake_witness :
    isConnack DecodedPacket.pingresp = false ∧
    dispatchPacket [] {} DecodedPacket.pingresp
      = sessionFail {} MqttError.unexpectedPacket ∧
    (dispatchPacket [] {} DecodedPacket.pingresp).connectResult
      = some (ConnectOutcome.rejected MqttError.unexpectedPacket) :=
  ⟨by decide,
   unexpected_packet_handshake_scenario.1 [] {} DecodedPacket.pingresp rfl (by decide),
   (unexpected_packet_handshake_scenario.2.1 [] DecodedPacket.pingresp (by decide)).1⟩

/-- C4: with `max_reconnect_attempts=2`, after an initial successful
CONNACK each of two successive transport destructions triggers a reconnect
(a new CONNECT is written and `connect` fires, giving three CONNECT writes
and three `connect` events in total), and a third destruction reaches
terminal disconnect without another CONNECT, leaving `disconnected`
true with a single `disconnect` event. -/
theorem max_reconnect_attempts_scenario :
    (let connack := [0x20, 0x02, 0x01, 0x00]
     let run2 := runAttachments {} [] (initialClient 2) [connack, connack]
     let run3 := runAttachments {} [] (initialClient 2) [connack, connack, connack]
     run2.writes.length = 2 ∧ run2.disconnected = false ∧
     run2.events.count "connect" = 2 ∧
     run3.writes.length = 3 ∧ run3.events.count "connect" = 3 ∧
     run3.disconnected = true ∧ run3.events.count "disconnect" = 1) := by
  decide

/-- C5: a listener on filter "abc" registered before `connect()` is
invoked for the matching inbound PUBLISH `30 05 00 03 61 62 63` in every
session: once in the first session, and again, with the same filter and the
same message, after the transport destruction and automatic reconnect. -/
theorem listeners_retained_scenario :
    (let bytes := [0x20, 0x02, 0x01, 0x00, 0x30, 0x05, 0x00, 0x03, 0x61, 0x62, 0x63]
     let msg : MqttMessage :=
       { topic := "abc", payload := [], qosLevel := 0, retained := false, duplicate := false }
     let run1 := runAttachments {} ["abc"] (initialClient 60) [bytes]
     let run2 := runAttachments {} ["abc"] (initialClient 60) [bytes, bytes]
     run1.listenerCalls = [("abc", msg)] ∧
     run2.listenerCalls = [("abc", msg), ("abc", msg)] ∧
     run2.events.count "connect" = 2) := by
  decide

/-- C6: with `connect_delay_ms=2000` and no CONNACK, exactly one CONNECT is
written by t = 1 ms (and still only that one by t = 2000 ms), and a second
CONNECT is written at t = 2001 ms whose payload is identical to the
first. -/
theorem connect_delay_retry_scenario :
    (let opts : RegisterClientOptions := { connectDelay := some 2000 }
     connectDelayWrites opts 1 = [(1, fillDefaults opts)] ∧
     connectDelayWrites opts 2000 = [(1, fillDefaults opts)] ∧
     connectDelayWrites opts 2001 = [(1, fillDefaults opts), (2001, fillDefaults opts)]) := by
  decide

/-- C7: when the bytes `30 04 00 01 41 42` (QoS 0 PUBLISH, topic "A",
payload "B") arrive on a connected session, the client emits exactly one
`message` event whose value is topic "A", the single payload byte "B",
QoS level 0, not retained, not a duplicate. -/
theorem publish_emits_message_scenario :
    (let run := runSession {} [] [0x20, 0x02, 0x01, 0x00, 0x30, 0x04, 0x00, 0x01, 0x41, 0x42]
     run.state.messages = [{ topic := "A", payload := [0x42], qosLevel := 0,
                             retained := false, duplicate := false }] ∧
     run.state.events.count "message" = 1) := by
  decide

/-- C8: `stop_flow(flow_id)` returns true exactly when a flow with that id
is active; when it does, the flow is removed while all other flows are kept
unchanged in order, the packet identifier the flow held is released while
every other in-use identifier is kept, and the flow's awaiter settles with
`FlowStoppedError`; when no such flow exists the state is untouched. -/
theorem stopFlow_spec (host : FlowHost) (fid : Nat) :
    ((stopFlow host fid).1 = host.flows.any (fun f => f.flowId == fid)) ∧
    (∀ f, host.flows.find? (fun g => g.flowId == fid) = some f →
      (stopFlow host fid).2.flows = host.flows.filter (fun g => g.flowId != fid) ∧
      (stopFlow host fid).2.results
        = host.results ++ [(fid, FlowOutcome.flowStoppedError)] ∧
      (stopFlow host fid).2.usedPacketIds
        = host.usedPacketIds.filter (fun i => f.packetId != some i)) ∧
    ((stopFlow host fid).1 = false → (stopFlow host fid).2 = host) := by
  cases hf : host.flows.find? (fun f => f.flowId == fid) with
  | none =>
    have hnone : ∀ x ∈ host.flows, ¬ ((fun f => f.flowId == fid) x = true) :=
      List.find?_eq_none.mp hf
    refine ⟨?_, ?_, ?_⟩
    · show (stopFlow host fid).1 = host.flows.any (fun f => f.flowId == fid)
      rw [List.any_eq_false.mpr hnone]
      simp only [stopFlow, hf]
    · intro f h
      exact Option.noConfusion h
    · intro _
      simp only [stopFlow, hf]
  | some f0 =>
    have hmem : f0 ∈ host.flows := List.mem_of_find?_eq_some hf
    have hpf : (f0.flowId == fid) = true :=
      List.find?_some (p := fun f : ActiveFlow => f.flowId == fid) hf
    refine ⟨?_, ?_, ?_⟩
    · show (stopFlow host fid).1 = host.flows.any (fun f => f.flowId == fid)
      rw [List.any_eq_true.mpr ⟨f0, hmem, hpf⟩]
      simp only [stopFlow, hf]
    · intro f h
      injection h with h
      subst h
      simp only [stopFlow, hf]
      exact ⟨trivial, trivial, trivial⟩
    · intro hfalse
      simp only [stopFlow, hf] at hfalse
      exact Bool.noConfusion hfalse

/-- Witness for C8 at the scenario of the test suite: a host with one
no-op flow (id 0, holding no packet identifier); stopping it returns true,
leaves no active flow, and settles the awaiter with `FlowStoppedError`. -/
theorem stopFlow_spec_witness :
    (stopFlow { flows := [{ flowId := 0, packetId := none }], nextFlowId := 1 } 0).1 = true ∧
    (stopFlow { flows := [{ flowId := 0, packetId := none }], nextFlowId := 1 } 0).2.flows = [] ∧
    (stopFlow { flows := [{ flowId := 0, packetId := none }], nextFlowId := 1 } 0).2.results
      = [(0, FlowOutcome.flowStoppedError)] := by
  have h := stopFlow_spec { flows := [{ flowId := 0, packetId := none }], nextFlowId := 1 } 0
  have hf : ({ flows := [{ flowId := 0, packetId := none }], nextFlowId := 1 } : FlowHost).flows.find?
      (fun g => g.flowId == 0) = some { flowId := 0, packetId := none } := by decide
  have h2 := h.2.1 { flowId := 0, packetId := none } hf
  refine ⟨?_, ?_, ?_⟩
  · rw [h.1]
    decide
  · rw [h2.1]
    decide
  · rw [h2.2.1]
    decide
